import Mathlib

/-
Verification of the polling-loop logic of
`src/monitoring/monitors/monitor_starters.py` (tarabukinivan/tarpanic).

The file shallowly embeds the three loop bodies (`start_node_monitor`,
`start_network_monitor`, `start_github_monitor`) as pure functions from a
poll outcome (success or a raised fault) to the list of observable effects
performed in that iteration, together with the fault re-raised (if any)
and, for the GitHub loop, the updated alert-limiter state.
-/

namespace MonitorStarters

/-- The exception kinds that `monitor()` can raise, as distinguished by the
except clauses of the three loops.  `connectionFailure` is
`requests.exceptions.ConnectionError`, `readTimeout` is
`requests.exceptions.ReadTimeout`, `incompleteRead` is
`http.client.IncompleteRead`, `chunkedEncodingError` is
`requests.exceptions.ChunkedEncodingError`, `protocolError` is
`urllib3.exceptions.ProtocolError`, `jsonDecodeError` is
`json.JSONDecodeError`, `noLiveFullNode` is
`src.utils.exceptions.NoLiveFullNodeException`, and `unclassified` stands
for any other `Exception`. -/
inductive Fault
  | connectionFailure
  | readTimeout
  | incompleteRead
  | chunkedEncodingError
  | protocolError
  | jsonDecodeError
  | noLiveFullNode
  | unclassified
  deriving DecidableEq, Repr

/-- The alert objects constructed by the loops
(`src.alerting.alerts.alerts`). -/
inductive Alert
  | couldNotFindLiveFullNodeAlert
  | errorWhenReadingDataFromNode
  | cannotAccessGitHubPageAlert
  deriving DecidableEq, Repr

/-- The subjects on which `set_as_down` is invoked: `node_monitor.node` in
the node loop, `network_monitor.last_full_node_used` in the network loop. -/
inductive Subject
  | node
  | lastFullNodeUsed
  deriving DecidableEq, Repr

/-- One observable effect performed by a loop iteration, in program order.
`set_as_down s` is `s.set_as_down(channels, logger)`; `alert_major a` and
`alert_error a` are calls on the monitor's channel set;
`save_monitor_state` is `monitor.save_state()`; `save_node_state` is
`node.save_state(logger)`; `limiter_reset` and `limiter_did_task` are the
calls on the GitHub loop's `TimedTaskLimiter`; `sleep n` is
`time.sleep(monitor_period)`. -/
inductive Event
  | logDebug
  | logError
  | logException
  | set_as_down (s : Subject)
  | alert_major (a : Alert)
  | alert_error (a : Alert)
  | save_monitor_state
  | save_node_state
  | limiter_reset
  | limiter_did_task
  | sleep (seconds : Nat)
  deriving DecidableEq, Repr

/-- Modelled from the spec: `TimedTaskLimiter` lives in
`src/utils/timing.py`, which is not among the provided sources.  Spec §4.3:
`canFire()` is true if never fired, or elapsed time since last firing is at
least the configured interval; `recordFired()` sets last-fired to now;
`reset()` clears last-fired, equivalent to "never fired".  Time is a `Nat`
timestamp passed explicitly. -/
structure TimedTaskLimiter where
  time_interval : Nat
  last_fired : Option Nat
  deriving DecidableEq, Repr

/-- Modelled from the spec: true if never fired or the interval has elapsed
since the last firing. -/
def TimedTaskLimiter.can_do_task (l : TimedTaskLimiter) (now : Nat) : Bool :=
  match l.last_fired with
  | none => true
  | some t => decide (t + l.time_interval ≤ now)

/-- Modelled from the spec: record the firing at the current time. -/
def TimedTaskLimiter.did_task (l : TimedTaskLimiter) (now : Nat) :
    TimedTaskLimiter :=
  { l with last_fired := some now }

/-- Modelled from the spec: clear the last-fired timestamp. -/
def TimedTaskLimiter.reset (l : TimedTaskLimiter) : TimedTaskLimiter :=
  { l with last_fired := none }

/-- Outcome of one iteration of the node or network loop: the effects
performed, and the fault re-raised out of the loop (if any; `none` means
the loop proceeds to the next iteration). -/
structure IterResult where
  events : List Event
  raised : Option Fault
  deriving DecidableEq, Repr

/-- The try/except block of `start_node_monitor` (lines 26-40).  The input
is the outcome of `node_monitor.monitor()`: `none` for success, `some f`
for a raised fault.  Clauses in source order: `ReqConnectionError`,
`ReadTimeout`, `(IncompleteRead, ChunkedEncodingError, ProtocolError)`,
then `Exception` which logs the exception and re-raises it. -/
def node_monitor_try (f : Option Fault) : List Event × Option Fault :=
  match f with
  | none => ([.logDebug, .logDebug], none)
  | some .connectionFailure => ([.logDebug, .set_as_down .node], none)
  | some .readTimeout => ([.logDebug, .set_as_down .node], none)
  | some .incompleteRead => ([.logDebug, .logError], none)
  | some .chunkedEncodingError => ([.logDebug, .logError], none)
  | some .protocolError => ([.logDebug, .logError], none)
  | some g => ([.logDebug, .logException], some g)

/-- One full iteration of the `while True` body of `start_node_monitor`
(lines 24-48): the try/except block, then `node_monitor.save_state()`,
`node_monitor.node.save_state(logger)`, a debug log and
`time.sleep(monitor_period)`.  When the except-Exception clause re-raises,
nothing after the try block runs. -/
def start_node_monitor_iter (f : Option Fault) (monitor_period : Nat) :
    IterResult :=
  match node_monitor_try f with
  | (evs, some g) => ⟨evs, some g⟩
  | (evs, none) =>
      ⟨evs ++ [.save_monitor_state, .save_node_state, .logDebug,
               .sleep monitor_period], none⟩

/-- The try/except block of `start_network_monitor` (lines 56-73).  Clauses
in source order: `NoLiveFullNodeException` (alert_major),
`(ReqConnectionError, ReadTimeout)` (mark last full node used as down),
`(IncompleteRead, ChunkedEncodingError, ProtocolError)` (alert_error, then
an error log), then `Exception` which logs and re-raises. -/
def network_monitor_try (f : Option Fault) : List Event × Option Fault :=
  match f with
  | none => ([.logDebug, .logDebug], none)
  | some .noLiveFullNode =>
      ([.logDebug, .alert_major .couldNotFindLiveFullNodeAlert], none)
  | some .connectionFailure =>
      ([.logDebug, .set_as_down .lastFullNodeUsed], none)
  | some .readTimeout =>
      ([.logDebug, .set_as_down .lastFullNodeUsed], none)
  | some .incompleteRead =>
      ([.logDebug, .alert_error .errorWhenReadingDataFromNode, .logError],
       none)
  | some .chunkedEncodingError =>
      ([.logDebug, .alert_error .errorWhenReadingDataFromNode, .logError],
       none)
  | some .protocolError =>
      ([.logDebug, .alert_error .errorWhenReadingDataFromNode, .logError],
       none)
  | some g => ([.logDebug, .logException], some g)

/-- One full iteration of the `while True` body of `start_network_monitor`
(lines 54-81): the try/except block, then `network_monitor.save_state()`,
then — only if `network_monitor.is_syncing()` is false — a debug log and
`time.sleep(monitor_period)`. -/
def start_network_monitor_iter (f : Option Fault) (is_syncing : Bool)
    (monitor_period : Nat) : IterResult :=
  match network_monitor_try f with
  | (evs, some g) => ⟨evs, some g⟩
  | (evs, none) =>
      if is_syncing then ⟨evs ++ [.save_monitor_state], none⟩
      else ⟨evs ++ [.save_monitor_state, .logDebug, .sleep monitor_period],
            none⟩

/-- Outcome of one iteration of the GitHub loop: effects, updated limiter
state, and the fault re-raised (if any). -/
structure GithubIterResult where
  events : List Event
  limiter : TimedTaskLimiter
  raised : Option Fault
  deriving DecidableEq, Repr

/-- The `(ReqConnectionError, ReadTimeout)` clause of
`start_github_monitor` (lines 104-110): if the limiter permits, emit the
`CannotAccessGitHubPageAlert` via `alert_error` and record the firing;
in either case log an error. -/
def github_conn_case (lim : TimedTaskLimiter) (now : Nat) :
    List Event × TimedTaskLimiter × Option Fault :=
  if lim.can_do_task now then
    ([.logDebug, .alert_error .cannotAccessGitHubPageAlert,
      .limiter_did_task, .logError], lim.did_task now, none)
  else
    ([.logDebug, .logError], lim, none)

/-- The try/except block of `start_github_monitor` (lines 94-115).  On
success, `github_monitor.save_state()` and `github_error_alert_limiter.reset()`
run inside the try (lines 99-103); `JSONDecodeError` is only logged
(lines 111-112); any other `Exception` is logged and re-raised. -/
def github_monitor_try (f : Option Fault) (lim : TimedTaskLimiter)
    (now : Nat) : List Event × TimedTaskLimiter × Option Fault :=
  match f with
  | none =>
      ([.logDebug, .logDebug, .save_monitor_state, .limiter_reset],
       lim.reset, none)
  | some .connectionFailure => github_conn_case lim now
  | some .readTimeout => github_conn_case lim now
  | some .jsonDecodeError => ([.logDebug, .logError], lim, none)
  | some g => ([.logDebug, .logException], lim, some g)

/-- One full iteration of the `while True` body of `start_github_monitor`
(lines 92-119): the try/except block, then a debug log and
`time.sleep(monitor_period)`.  `now` is the current timestamp seen by the
limiter in this iteration. -/
def start_github_monitor_iter (f : Option Fault) (lim : TimedTaskLimiter)
    (now : Nat) (monitor_period : Nat) : GithubIterResult :=
  match github_monitor_try f lim now with
  | (evs, lim2, some g) => ⟨evs, lim2, some g⟩
  | (evs, lim2, none) =>
      ⟨evs ++ [.logDebug, .sleep monitor_period], lim2, none⟩

/-- The fault kinds named in the node loop's except clauses other than the
final `except Exception` (its classification table). -/
def node_handled (f : Fault) : Bool :=
  match f with
  | .connectionFailure => true
  | .readTimeout => true
  | .incompleteRead => true
  | .chunkedEncodingError => true
  | .protocolError => true
  | _ => false

/-- The fault kinds named in the network loop's except clauses other than
the final `except Exception`. -/
def network_handled (f : Fault) : Bool :=
  match f with
  | .noLiveFullNode => true
  | .connectionFailure => true
  | .readTimeout => true
  | .incompleteRead => true
  | .chunkedEncodingError => true
  | .protocolError => true
  | _ => false

/-- The fault kinds named in the GitHub loop's except clauses other than
the final `except Exception`. -/
def github_handled (f : Fault) : Bool :=
  match f with
  | .connectionFailure => true
  | .readTimeout => true
  | .jsonDecodeError => true
  | _ => false

/-- True for the events that call the alert-channel set. -/
def isAlertEvent : Event → Bool
  | .alert_major _ => true
  | .alert_error _ => true
  | _ => false

/-- True for the events that mark a subject down. -/
def isSetDownEvent : Event → Bool
  | .set_as_down _ => true
  | _ => false

/-- True for the `time.sleep` event. -/
def isSleepEvent : Event → Bool
  | .sleep _ => true
  | _ => false

/-- C2: for each of the three loops and every fault raised by the poll, a
fault named in that loop's except clauses (its classification table) is
absorbed — the iteration re-raises nothing, so the loop proceeds — while a
fault not in the table is logged via `logger.exception` and re-raised,
terminating the loop. -/
theorem fault_classification_table (f : Fault) (p now : Nat) (sync : Bool)
    (lim : TimedTaskLimiter) :
    ((start_node_monitor_iter (some f) p).raised
        = if node_handled f then none else some f)
    ∧ (Event.logException ∈ (start_node_monitor_iter (some f) p).events
        ↔ node_handled f = false)
    ∧ ((start_network_monitor_iter (some f) sync p).raised
        = if network_handled f then none else some f)
    ∧ (Event.logException ∈ (start_network_monitor_iter (some f) sync p).events
        ↔ network_handled f = false)
    ∧ ((start_github_monitor_iter (some f) lim now p).raised
        = if github_handled f then none else some f)
    ∧ (Event.logException ∈ (start_github_monitor_iter (some f) lim now p).events
        ↔ github_handled f = false) := by
  rcases h : lim.can_do_task now <;>
    cases f <;> cases sync <;>
      simp [start_node_monitor_iter, node_monitor_try, node_handled,
            start_network_monitor_iter, network_monitor_try, network_handled,
            start_github_monitor_iter, github_monitor_try, github_handled,
            github_conn_case, h]

/-- C3: in every iteration of the network loop, `NoLiveFullNodeException`
yields exactly one `alert_major` with `CouldNotFindLiveFullNodeAlert`
unconditionally (no limiter exists in this loop, so no suppression);
`ConnectionError`/`ReadTimeout` yield exactly one `set_as_down` on the
last-full-node-used subject and no alert-channel call; each of
`IncompleteRead`/`ChunkedEncodingError`/`ProtocolError` yields exactly one
`alert_error` with `ErrorWhenReadingDataFromNode` plus an error log line,
the alert occurring before the log line. -/
theorem network_fault_actions (sync : Bool) (p : Nat) :
    ((start_network_monitor_iter (some .noLiveFullNode) sync p).events.count
        (Event.alert_major .couldNotFindLiveFullNodeAlert) = 1
      ∧ (start_network_monitor_iter (some .noLiveFullNode) sync p).raised = none)
    ∧ (∀ f : Fault, f = Fault.connectionFailure ∨ f = Fault.readTimeout →
        (start_network_monitor_iter (some f) sync p).events.count
          (Event.set_as_down .lastFullNodeUsed) = 1
        ∧ (start_network_monitor_iter (some f) sync p).events.countP
            isAlertEvent = 0)
    ∧ (∀ f : Fault, f = Fault.incompleteRead ∨ f = Fault.chunkedEncodingError
          ∨ f = Fault.protocolError →
        (start_network_monitor_iter (some f) sync p).events.count
          (Event.alert_error .errorWhenReadingDataFromNode) = 1
        ∧ Event.logError ∈ (start_network_monitor_iter (some f) sync p).events
        ∧ (start_network_monitor_iter (some f) sync p).events.indexOf
            (Event.alert_error .errorWhenReadingDataFromNode)
          < (start_network_monitor_iter (some f) sync p).events.indexOf
            Event.logError) := by
  refine ⟨?_, ?_, ?_⟩
  · cases sync <;> exact ⟨rfl, rfl⟩
  · intro f hf
    rcases hf with h | h
    · cases sync <;> subst h <;> exact ⟨rfl, rfl⟩
    · cases sync <;> subst h <;> exact ⟨rfl, rfl⟩
  · rintro f (h | h | h) <;> subst h <;> cases sync <;>
      exact ⟨rfl, by simp [start_network_monitor_iter, network_monitor_try],
             by show 1 < 2; norm_num⟩

/-- C3 witness: a `ConnectionFailure` in the network loop marks the last
full node used as down exactly once and never calls the alert channel, and
an `IncompleteRead` alerts exactly once before its error log line. -/
theorem network_fault_actions_witness :
    (start_network_monitor_iter (some .connectionFailure) false 60).events.count
        (Event.set_as_down .lastFullNodeUsed) = 1
    ∧ (start_network_monitor_iter (some .connectionFailure) false 60).events.countP
        isAlertEvent = 0
    ∧ (start_network_monitor_iter (some .incompleteRead) false 60).events.count
        (Event.alert_error .errorWhenReadingDataFromNode) = 1 :=
  ⟨((network_fault_actions false 60).2.1 .connectionFailure (by simp)).1,
   ((network_fault_actions false 60).2.1 .connectionFailure (by simp)).2,
   ((network_fault_actions false 60).2.2 .incompleteRead (by simp)).1⟩

/-- C4: in every iteration of the node loop, `ConnectionError` or
`ReadTimeout` yields exactly one `set_as_down` on the node and no
alert-channel call; `IncompleteRead`/`ChunkedEncodingError`/`ProtocolError`
yield only an error log line with no alert and no mark-down; a successful
poll yields neither a mark-down nor an alert. -/
theorem node_fault_actions (p : Nat) :
    (∀ f : Fault, f = Fault.connectionFailure ∨ f = Fault.readTimeout →
        (start_node_monitor_iter (some f) p).events.count
          (Event.set_as_down .node) = 1
        ∧ (start_node_monitor_iter (some f) p).events.countP isAlertEvent = 0)
    ∧ (∀ f : Fault, f = Fault.incompleteRead ∨ f = Fault.chunkedEncodingError
          ∨ f = Fault.protocolError →
        Event.logError ∈ (start_node_monitor_iter (some f) p).events
        ∧ (start_node_monitor_iter (some f) p).events.countP isAlertEvent = 0
        ∧ (start_node_monitor_iter (some f) p).events.countP isSetDownEvent = 0)
    ∧ ((start_node_monitor_iter none p).events.countP isAlertEvent = 0
        ∧ (start_node_monitor_iter none p).events.countP isSetDownEvent = 0) := by
  refine ⟨?_, ?_, rfl, rfl⟩
  · intro f hf
    rcases hf with h | h
    · subst h; exact ⟨rfl, rfl⟩
    · subst h; exact ⟨rfl, rfl⟩
  · rintro f (h | h | h) <;> subst h <;>
      exact ⟨by simp [start_node_monitor_iter, node_monitor_try], rfl, rfl⟩

/-- C4 witness: a `ConnectionFailure` in the node loop marks the node down
exactly once with no alert, and an `IncompleteRead` neither alerts nor
marks down. -/
theorem node_fault_actions_witness :
    (start_node_monitor_iter (some .connectionFailure) 30).events.count
        (Event.set_as_down .node) = 1
    ∧ (start_node_monitor_iter (some .incompleteRead) 30).events.countP
        isAlertEvent = 0 :=
  ⟨((node_fault_actions 30).1 .connectionFailure (by simp)).1,
   ((node_fault_actions 30).2.1 .incompleteRead (by simp)).2.1⟩

/-- C7: in every iteration of the GitHub loop in which the poll raises a
`JSONDecodeError`, and for every limiter state, the iteration performs
exactly the error log, a debug log and the sleep — no alert-channel call,
no mark-down, nothing re-raised, so the loop continues. -/
theorem github_json_decode_silent (lim : TimedTaskLimiter) (now p : Nat) :
    (start_github_monitor_iter (some .jsonDecodeError) lim now p).events
      = [Event.logDebug, Event.logError, Event.logDebug, Event.sleep p]
    ∧ (start_github_monitor_iter (some .jsonDecodeError) lim now p).events.countP
        isAlertEvent = 0
    ∧ (start_github_monitor_iter (some .jsonDecodeError) lim now p).events.countP
        isSetDownEvent = 0
    ∧ (start_github_monitor_iter (some .jsonDecodeError) lim now p).raised
        = none :=
  ⟨rfl, rfl, rfl, rfl⟩

/-- C8: in every non-fatal iteration the node loop and the GitHub loop
sleep the configured period (the sleep event occurs exactly when nothing is
re-raised), while the network loop sleeps exactly when nothing is re-raised
and `is_syncing()` is false — it is the only loop whose non-fatal
iterations can skip the pacing sleep. -/
theorem sleep_pacing (f : Option Fault) (p now : Nat) (sync : Bool)
    (lim : TimedTaskLimiter) :
    (Event.sleep p ∈ (start_node_monitor_iter f p).events
      ↔ (start_node_monitor_iter f p).raised = none)
    ∧ (Event.sleep p ∈ (start_github_monitor_iter f lim now p).events
      ↔ (start_github_monitor_iter f lim now p).raised = none)
    ∧ (Event.sleep p ∈ (start_network_monitor_iter f sync p).events
      ↔ ((start_network_monitor_iter f sync p).raised = none
          ∧ sync = false)) := by
  rcases h : lim.can_do_task now <;>
    rcases f with _ | f <;> try cases f
  all_goals cases sync <;>
    simp [start_node_monitor_iter, node_monitor_try,
          start_network_monitor_iter, network_monitor_try,
          start_github_monitor_iter, github_monitor_try, github_conn_case, h]

/-- C9: within any single GitHub-loop iteration, the
`CannotAccessGitHubPageAlert` is emitted exactly as many times as
`did_task` is called on the limiter (so the alert occurs iff the firing is
recorded), and that number is at most one. -/
theorem github_alert_iff_limiter_fired (f : Option Fault)
    (lim : TimedTaskLimiter) (now p : Nat) :
    (start_github_monitor_iter f lim now p).events.count
        (Event.alert_error .cannotAccessGitHubPageAlert)
      = (start_github_monitor_iter f lim now p).events.count
          Event.limiter_did_task
    ∧ (start_github_monitor_iter f lim now p).events.count
        Event.limiter_did_task ≤ 1 := by
  rcases h : lim.can_do_task now <;>
    rcases f with _ | f <;> try cases f
  all_goals
    simp [start_github_monitor_iter, github_monitor_try, github_conn_case, h,
          List.count_cons, List.count_append]

/-- C10: a GitHub-loop iteration whose poll raises a `JSONDecodeError`
leaves the limiter exactly as it was — neither `reset` nor `did_task` is
called, so `can_do_task` answers the same at every time afterwards — and
`save_state` is not called in that iteration either. -/
theorem github_json_decode_frame (lim : TimedTaskLimiter) (now p : Nat) :
    (start_github_monitor_iter (some .jsonDecodeError) lim now p).limiter = lim
    ∧ Event.limiter_reset ∉
        (start_github_monitor_iter (some .jsonDecodeError) lim now p).events
    ∧ Event.limiter_did_task ∉
        (start_github_monitor_iter (some .jsonDecodeError) lim now p).events
    ∧ Event.save_monitor_state ∉
        (start_github_monitor_iter (some .jsonDecodeError) lim now p).events
    ∧ ∀ t : Nat,
        ((start_github_monitor_iter (some .jsonDecodeError) lim now
            p).limiter).can_do_task t
          = lim.can_do_task t := by
  refine ⟨rfl, ?_, ?_, ?_, fun t => rfl⟩ <;>
    simp [start_github_monitor_iter, github_monitor_try]

/-- C1: in the GitHub loop, a ConnectionError/ReadTimeout iteration at time
`t1` on which the limiter permits firing, followed by another such fault
iteration at time `t2` within the rate-limit window (`t2 < t1 +
time_interval`), produces exactly one `alert_error` with
`CannotAccessGitHubPageAlert` across the two iterations; a fully successful
iteration after the first fault resets the limiter, so a subsequent fault
iteration alerts again (exactly once); and every such fault iteration logs
an error regardless of the limiter's state. -/
theorem github_rate_limit_window (lim : TimedTaskLimiter)
    (f1 f2 f3 : Fault) (t1 t2 t3 tS p : Nat)
    (hf1 : f1 = Fault.connectionFailure ∨ f1 = Fault.readTimeout)
    (hf2 : f2 = Fault.connectionFailure ∨ f2 = Fault.readTimeout)
    (hf3 : f3 = Fault.connectionFailure ∨ f3 = Fault.readTimeout)
    (hfire : lim.can_do_task t1 = true)
    (hwin : t2 < t1 + lim.time_interval) :
    ((start_github_monitor_iter (some f1) lim t1 p).events
        ++ (start_github_monitor_iter (some f2)
              (start_github_monitor_iter (some f1) lim t1 p).limiter
              t2 p).events).count
        (Event.alert_error .cannotAccessGitHubPageAlert) = 1
    ∧ (start_github_monitor_iter (some f3)
          (start_github_monitor_iter none
              (start_github_monitor_iter (some f1) lim t1 p).limiter
              tS p).limiter
          t3 p).events.count
        (Event.alert_error .cannotAccessGitHubPageAlert) = 1
    ∧ (∀ (lim' : TimedTaskLimiter) (t : Nat) (g : Fault),
        g = Fault.connectionFailure ∨ g = Fault.readTimeout →
        Event.logError ∈
          (start_github_monitor_iter (some g) lim' t p).events) := by
  have hsecond : ((lim.did_task t1).can_do_task t2) = false := by
    simp only [TimedTaskLimiter.can_do_task, TimedTaskLimiter.did_task,
      decide_eq_false_iff_not, not_le]
    exact hwin
  refine ⟨?_, ?_, ?_⟩
  · rcases hf1 with h1 | h1 <;> rcases hf2 with h2 | h2 <;>
      subst h1 <;> subst h2 <;>
      simp [start_github_monitor_iter, github_monitor_try, github_conn_case,
            hfire, hsecond, List.count_append, List.count_cons]
  · rcases hf1 with h1 | h1 <;> rcases hf3 with h3 | h3 <;>
      subst h1 <;> subst h3 <;>
      simp [start_github_monitor_iter, github_monitor_try, github_conn_case,
            hfire, TimedTaskLimiter.reset, TimedTaskLimiter.can_do_task,
            List.count_cons]
  · rintro lim' t g (hg | hg) <;> subst hg <;>
      rcases hc : lim'.can_do_task t <;>
      simp [start_github_monitor_iter, github_monitor_try, github_conn_case, hc]

/-- C1 witness: with a 3600-second window and a fresh limiter, a
ConnectionError at t=0 followed by one at t=10 alerts exactly once across
the two iterations; after a success at t=20, a ConnectionError at t=25
alerts exactly once; and a fault iteration under a suppressing limiter
still logs an error. -/
theorem github_rate_limit_window_witness :
    ((start_github_monitor_iter (some .connectionFailure) ⟨3600, none⟩ 0
          300).events
        ++ (start_github_monitor_iter (some .connectionFailure)
              (start_github_monitor_iter (some .connectionFailure)
                ⟨3600, none⟩ 0 300).limiter 10 300).events).count
        (Event.alert_error .cannotAccessGitHubPageAlert) = 1
    ∧ (start_github_monitor_iter (some .connectionFailure)
          (start_github_monitor_iter none
              (start_github_monitor_iter (some .connectionFailure)
                ⟨3600, none⟩ 0 300).limiter 20 300).limiter
          25 300).events.count
        (Event.alert_error .cannotAccessGitHubPageAlert) = 1
    ∧ Event.logError ∈
        (start_github_monitor_iter (some .connectionFailure)
          ⟨3600, some 5⟩ 10 300).events :=
  have h := github_rate_limit_window ⟨3600, none⟩ .connectionFailure
    .connectionFailure .connectionFailure 0 10 25 20 300
    (Or.inl rfl) (Or.inl rfl) (Or.inl rfl) (by decide) (by decide)
  ⟨h.1, h.2.1, h.2.2 ⟨3600, some 5⟩ 10 .connectionFailure (Or.inl rfl)⟩

/-- C5 counterexample: a transient-data fault (`IncompleteRead`) in the
network loop does call the alert channel, and in the GitHub loop it is
re-raised (the loop does not continue), contradicting "no alert-channel
call is made ... and the loop continues" for every loop. -/
theorem transient_fault_silent_counterexample :
    Event.alert_error .errorWhenReadingDataFromNode ∈
      (start_network_monitor_iter (some .incompleteRead) false 30).events
    ∧ (start_github_monitor_iter (some .incompleteRead) ⟨3600, none⟩ 0
        30).raised = some .incompleteRead := by
  decide

/-- C5 amended: a transient-data fault (`IncompleteRead`,
`ChunkedEncodingError`, `ProtocolError`) is logged and absorbed with no
alert and no mark-down in the node loop; in the network loop it is logged
and absorbed with no mark-down but emits exactly one `alert_error`; in the
GitHub loop it is not in the classification table, so it is logged via
`logger.exception` and re-raised, terminating the loop. -/
theorem transient_fault_handling_amended (p now : Nat) (sync : Bool)
    (lim : TimedTaskLimiter) (f : Fault)
    (hf : f = Fault.incompleteRead ∨ f = Fault.chunkedEncodingError
      ∨ f = Fault.protocolError) :
    (Event.logError ∈ (start_node_monitor_iter (some f) p).events
      ∧ (start_node_monitor_iter (some f) p).events.countP isAlertEvent = 0
      ∧ (start_node_monitor_iter (some f) p).events.countP isSetDownEvent = 0
      ∧ (start_node_monitor_iter (some f) p).raised = none)
    ∧ (Event.logError ∈ (start_network_monitor_iter (some f) sync p).events
      ∧ (start_network_monitor_iter (some f) sync p).events.countP
          isAlertEvent = 1
      ∧ (start_network_monitor_iter (some f) sync p).events.countP
          isSetDownEvent = 0
      ∧ (start_network_monitor_iter (some f) sync p).raised = none)
    ∧ ((start_github_monitor_iter (some f) lim now p).raised = some f
      ∧ Event.logException ∈
          (start_github_monitor_iter (some f) lim now p).events
      ∧ (start_github_monitor_iter (some f) lim now p).events.countP
          isAlertEvent = 0) := by
  rcases hf with h | h | h <;> subst h <;> cases sync <;>
    refine ⟨⟨?_, rfl, rfl, rfl⟩, ⟨?_, rfl, rfl, rfl⟩, rfl, ?_, rfl⟩ <;>
      simp [start_node_monitor_iter, node_monitor_try,
            start_network_monitor_iter, network_monitor_try,
            start_github_monitor_iter, github_monitor_try]

/-- C5 amended witness: a `ProtocolError` in the node loop is logged with
no alert, in the network loop alerts exactly once, and in the GitHub loop
is re-raised. -/
theorem transient_fault_handling_amended_witness :
    Event.logError ∈
      (start_node_monitor_iter (some .protocolError) 30).events
    ∧ (start_network_monitor_iter (some .protocolError) false 30).events.countP
        isAlertEvent = 1
    ∧ (start_github_monitor_iter (some .protocolError) ⟨3600, none⟩ 0
        30).raised = some .protocolError :=
  have h := transient_fault_handling_amended 30 0 false ⟨3600, none⟩
    .protocolError (Or.inr (Or.inr rfl))
  ⟨h.1.1, h.2.1.2.1, h.2.2.1⟩

/-- C6 counterexample: a non-fatal fault iteration of the GitHub loop
(ConnectionError under a fresh limiter) does not call `save_state`:
in `start_github_monitor` the persist happens inside the try block, only
after a successful `monitor()` call. -/
theorem persist_state_counterexample :
    Event.save_monitor_state ∉
      (start_github_monitor_iter (some .connectionFailure) ⟨3600, none⟩ 0
        30).events
    ∧ (start_github_monitor_iter (some .connectionFailure) ⟨3600, none⟩ 0
        30).raised = none := by
  decide

/-- C6 amended: the node loop persists monitor state and node state on
every non-fatal iteration, before the sleep; the network loop persists
monitor state on every non-fatal iteration, before any sleep; the GitHub
loop persists monitor state exactly on fully successful iterations; and
only the node loop ever persists a subject's state. -/
theorem persist_state_amended (f : Option Fault) (p now : Nat) (sync : Bool)
    (lim : TimedTaskLimiter) :
    ((start_node_monitor_iter f p).raised = none →
        Event.save_monitor_state ∈ (start_node_monitor_iter f p).events
        ∧ Event.save_node_state ∈ (start_node_monitor_iter f p).events
        ∧ (start_node_monitor_iter f p).events.indexOf Event.save_monitor_state
            < (start_node_monitor_iter f p).events.findIdx isSleepEvent)
    ∧ ((start_network_monitor_iter f sync p).raised = none →
        Event.save_monitor_state ∈ (start_network_monitor_iter f sync p).events
        ∧ (start_network_monitor_iter f sync p).events.indexOf
              Event.save_monitor_state
            < (start_network_monitor_iter f sync p).events.findIdx
                isSleepEvent)
    ∧ (Event.save_monitor_state ∈ (start_github_monitor_iter f lim now p).events
        ↔ f = none)
    ∧ Event.save_node_state ∉ (start_network_monitor_iter f sync p).events
    ∧ Event.save_node_state ∉ (start_github_monitor_iter f lim now p).events := by
  refine ⟨fun hn => ?_, fun hn => ?_, ?_, ?_, ?_⟩
  · rcases f with _ | g <;> try cases g
    all_goals first
      | exact Option.noConfusion hn
      | exact ⟨by simp [start_node_monitor_iter, node_monitor_try],
               by simp [start_node_monitor_iter, node_monitor_try],
               Nat.lt_of_sub_eq_succ rfl⟩
  · rcases f with _ | g <;> try cases g
    all_goals cases sync
    all_goals first
      | exact Option.noConfusion hn
      | exact ⟨by simp [start_network_monitor_iter, network_monitor_try],
               Nat.lt_of_sub_eq_succ rfl⟩
  · rcases hc : lim.can_do_task now <;> rcases f with _ | g <;> try cases g
    all_goals
      simp [start_github_monitor_iter, github_monitor_try, github_conn_case, hc]
  · rcases f with _ | g <;> try cases g
    all_goals cases sync <;>
      simp [start_network_monitor_iter, network_monitor_try]
  · rcases hc : lim.can_do_task now <;> rcases f with _ | g <;> try cases g
    all_goals
      simp [start_github_monitor_iter, github_monitor_try, github_conn_case, hc]

/-- C6 amended witness: a successful node-loop iteration persists both
states before sleeping; a successful network-loop iteration persists
monitor state; a GitHub-loop success persists monitor state. -/
theorem persist_state_amended_witness :
    (Event.save_monitor_state ∈ (start_node_monitor_iter none 30).events
      ∧ Event.save_node_state ∈ (start_node_monitor_iter none 30).events
      ∧ (start_node_monitor_iter none 30).events.indexOf
            Event.save_monitor_state
          < (start_node_monitor_iter none 30).events.findIdx isSleepEvent)
    ∧ (Event.save_monitor_state ∈
        (start_network_monitor_iter none false 60).events) :=
  have h := persist_state_amended none 30 0 false ⟨3600, none⟩
  have h2 := persist_state_amended none 60 0 false ⟨3600, none⟩
  ⟨h.1 rfl, (h2.2.1 rfl).1⟩

end MonitorStarters
